import Mathlib

/-!
Verification of the pulse-sequence scheduling logic of the presto-measure
repository (ramsey_echo.py, t1_memory_coherent.py, two_tone_power.py).

Times are embedded as exact rationals; the Python scripts accumulate a
running time variable T while emitting (timestamp, action) pairs to the
instrument driver.  Each script loop body is translated statement by
statement into a Lean function returning the emitted events and the new T.
Hardware side effects relevant to resource release are modelled as traces
of effect constructors.
-/

namespace Hw

/-- Hardware driver calls whose occurrence matters for the resource-release
behaviour of the scripts (ramsey_echo.py lines 104 to 107 and 216 to 218,
two_tone_power.py lines 86 to 148). -/
inductive Eff
  | connect
  | set_lmx (freq : ℚ) (pwr : ℚ)
  | set_dc_bias (port : ℕ) (bias : ℚ)
  | run_acquisition
  | get_store_data
  | set_scale (port : ℕ) (amp_i : ℚ) (amp_q : ℚ)
  | set_run (running : Bool)
  | sweep_point (jj : ℕ) (ii : ℕ)
  | disconnect
deriving DecidableEq, Repr

end Hw

namespace RamseyEcho

/-- Experiment parameters of ramsey_echo.py that determine the timeline
(lines 56 to 76 of the source). -/
structure Params where
  control_duration : ℚ
  readout_duration : ℚ
  wait_delay : ℚ
  readout_sample_delay : ℚ
  nr_delays : ℕ
  dt_delays : ℚ
  control_port : ℕ
  readout_port : ℕ
deriving DecidableEq, Repr

/-- Actions scheduled on the instrument timeline by ramsey_echo.py. -/
inductive RAction
  | reset_phase (port : ℕ)
  | pulse90
  | pulse180
  | readout_pulse
  | store
deriving DecidableEq, Repr

/-- A scheduled event: absolute timestamp paired with the action. -/
abbrev REvent := ℚ × RAction

/-- One iteration of the pulse-programming loop of ramsey_echo.py
(lines 182 to 204), for sweep index ii, starting at accumulated time T.
Returns the events emitted and the accumulated time after the iteration.
Every statement of the loop body is mirrored in order. -/
def ramseyStep (p : Params) (ii : ℕ) (T : ℚ) : List REvent × ℚ :=
  let e0 : List REvent := [(T, .reset_phase p.control_port), (T, .pulse90)]
  let T := T + p.control_duration
  let T := T + (ii : ℚ) * p.dt_delays / 2
  let e1 : List REvent := [(T, .pulse180)]
  let T := T + p.control_duration
  let T := T + (ii : ℚ) * p.dt_delays / 2
  let e2 : List REvent := [(T, .pulse90)]
  let T := T + p.control_duration
  let e3 : List REvent :=
    [(T, .reset_phase p.readout_port), (T, .readout_pulse),
     (T + p.readout_sample_delay, .store)]
  let T := T + p.readout_duration
  let T := T + p.wait_delay
  (e0 ++ e1 ++ e2 ++ e3, T)

/-- The whole pulse program of ramsey_echo.py (lines 180 to 204): the loop
runs for ii in range(nr_delays) starting from T = 0, collecting all events
and the final accumulated time T, which is then passed as the period to
pls.run (line 210). -/
def ramseyProgram (p : Params) : List REvent × ℚ :=
  (List.range p.nr_delays).foldl
    (fun acc ii =>
      let s := ramseyStep p ii acc.2
      (acc.1 ++ s.1, s.2))
    ([], 0)

/-- Accumulated time T at the start of sweep point i (after i loop
iterations). -/
def startTime (p : Params) (i : ℕ) : ℚ :=
  (List.range i).foldl (fun T ii => (ramseyStep p ii T).2) 0

/-- The events emitted for sweep point i within the full program. -/
def pointEvents (p : Params) (i : ℕ) : List REvent :=
  (ramseyStep p i (startTime p i)).1

/-- The per-point repetition period of sweep point ii: the advance of the
accumulated time T over one loop iteration. -/
def periodAt (p : Params) (ii : ℕ) (T : ℚ) : ℚ :=
  (ramseyStep p ii T).2 - T

/-- Duration of each drive pulse of ramsey_echo.py: both control templates
hold control_ns samples of the sin2 envelope (lines 156 to 171) and the
readout pulse is a long drive of readout_duration (lines 147 to 155);
phase resets and the sampling window are not output pulses. -/
def pulseDuration (p : Params) : RAction → Option ℚ
  | .pulse90 => some p.control_duration
  | .pulse180 => some p.control_duration
  | .readout_pulse => some p.readout_duration
  | _ => none

/-- The (start time, duration) pairs of the output pulses of an event list,
in emission order. -/
def pulseIntervals (p : Params) (evs : List REvent) : List (ℚ × ℚ) :=
  evs.filterMap (fun e => (pulseDuration p e.2).map (fun d => (e.1, d)))

/-- Idle gaps between consecutive pulses: next start time minus previous
end time. -/
def gapsOf : List (ℚ × ℚ) → List ℚ
  | [] => []
  | [_] => []
  | a :: b :: rest => (b.1 - (a.1 + a.2)) :: gapsOf (b :: rest)

/-- The parameter values hard-coded in ramsey_echo.py (lines 48, 56 to 76):
control_duration 20 ns, readout_duration 2 us, wait_delay 200 us,
readout_sample_delay 290 ns, nr_delays 256, dt_delays 0.4 us,
control_port 4 (WHICH_QUBIT = 2), readout_port 1. -/
def scriptParams : Params :=
  { control_duration := 20 / 1000000000
    readout_duration := 2 / 1000000
    wait_delay := 200 / 1000000
    readout_sample_delay := 290 / 1000000000
    nr_delays := 256
    dt_delays := 4 / 10000000
    control_port := 4
    readout_port := 1 }

/-- A small parameter set used to instantiate universally quantified
theorems on concrete inputs. -/
def pTest : Params :=
  { control_duration := 1
    readout_duration := 2
    wait_delay := 3
    readout_sample_delay := 4
    nr_delays := 5
    dt_delays := 2
    control_port := 4
    readout_port := 1 }

/-- Hardware-effect trace of the with-block of ramsey_echo.py (lines 79 to
218), abstracting the configuration and pulse-programming calls that do not
touch the JPA pump or bias.  use_jpa mirrors USE_JPA; pump_freq, pump_pwr
and bias mirror jpa_pump_freq, jpa_pump_pwr and jpa_bias; the bias port is
the constant jpa_bias_port = 1 (line 23).  run_raises models an exception
raised by pls.run mid-acquisition: the statements after line 214 are then
skipped and control leaves the with-block, whose context manager still
closes the connection. -/
def hwTrace (use_jpa : Bool) (pump_freq pump_pwr bias : ℚ)
    (run_raises : Bool) : List Hw.Eff :=
  [Hw.Eff.connect]
    ++ (if use_jpa then
          [Hw.Eff.set_lmx pump_freq pump_pwr, Hw.Eff.set_dc_bias 1 bias]
        else [])
    ++ [Hw.Eff.run_acquisition]
    ++ (if run_raises then [Hw.Eff.disconnect]
        else
          [Hw.Eff.get_store_data]
            ++ (if use_jpa then
                  [Hw.Eff.set_lmx 0 0, Hw.Eff.set_dc_bias 1 0]
                else [])
            ++ [Hw.Eff.disconnect])

/-- Per-qubit configuration chosen at the top of ramsey_echo.py
(lines 25 to 53).  control_amp_180 is only bound in the WHICH_QUBIT = 2,
WITH_COUPLER = False branch (line 46). -/
structure QubitConfig where
  readout_freq : ℚ
  control_amp_90 : ℚ
  control_amp_180 : Option ℚ
  control_freq : ℚ
  control_port : ℕ
  jpa_pump_freq : ℚ
  jpa_pump_pwr : ℚ
  jpa_bias : ℚ
deriving DecidableEq, Repr

/-- The WHICH_QUBIT selector of ramsey_echo.py (lines 25 to 53): qubit 1
and qubit 2 bind a configuration; any other value raises ValueError,
modelled as none. -/
def selectConfig (which : ℤ) (with_coupler : Bool) : Option QubitConfig :=
  if which = 1 then
    some (if with_coupler then
      { readout_freq := 6167009000
        control_amp_90 := 267 / 1000
        control_amp_180 := none
        control_freq := 3556520000
        control_port := 3
        jpa_pump_freq := 2 * 6169000000
        jpa_pump_pwr := 11
        jpa_bias := 437 / 1000 }
    else
      { readout_freq := 6166600000
        control_amp_90 := 5129 / 100000
        control_amp_180 := none
        control_freq := 3557866000
        control_port := 3
        jpa_pump_freq := 2 * 6169000000
        jpa_pump_pwr := 11
        jpa_bias := 437 / 1000 })
  else if which = 2 then
    some (if with_coupler then
      { readout_freq := 6029130000
        control_amp_90 := 380 / 1000
        control_amp_180 := none
        control_freq := 4093042000
        control_port := 4
        jpa_pump_freq := 2 * 6031000000
        jpa_pump_pwr := 9
        jpa_bias := 449 / 1000 }
    else
      { readout_freq := 6028450000
        control_amp_90 := 3808 / 10000
        control_amp_180 := some (7617 / 10000)
        control_freq := 4093372000
        control_port := 4
        jpa_pump_freq := 2 * 6031000000
        jpa_pump_pwr := 9
        jpa_bias := 449 / 1000 })
  else none

/-- Top level of ramsey_echo.py: the qubit selection (lines 25 to 53) runs
before the with-block (line 79) opens the instrument connection, so an
invalid selector yields no hardware trace at all. -/
def script (which : ℤ) (with_coupler use_jpa run_raises : Bool) :
    Option (List Hw.Eff) :=
  (selectConfig which with_coupler).map
    (fun cfg => hwTrace use_jpa cfg.jpa_pump_freq cfg.jpa_pump_pwr
      cfg.jpa_bias run_raises)

end RamseyEcho

namespace T1Memory

/-- Parameters of t1_memory_coherent.py that determine the timeline
(constructor arguments, lines 21 to 62). -/
structure Params where
  memory_duration : ℚ
  control_duration : ℚ
  readout_duration : ℚ
  wait_delay : ℚ
  readout_sample_delay : ℚ
  delay_arr : List ℚ
deriving DecidableEq, Repr

/-- Actions scheduled on the instrument timeline by T1_memory_coherent.run. -/
inductive TAction
  | memory_pulse
  | control_pulse
  | readout_pulse
  | store
deriving DecidableEq, Repr

/-- A scheduled event: absolute timestamp paired with the action. -/
abbrev TEvent := ℚ × TAction

/-- One iteration of the pulse-programming loop of T1_memory_coherent.run
(lines 142 to 151), for a swept delay, starting at accumulated time T. -/
def t1Step (p : Params) (delay : ℚ) (T : ℚ) : List TEvent × ℚ :=
  let e0 : List TEvent := [(T, .memory_pulse)]
  let T := T + p.memory_duration
  let T := T + delay
  let e1 : List TEvent := [(T, .control_pulse)]
  let T := T + p.control_duration
  let e2 : List TEvent :=
    [(T, .readout_pulse), (T + p.readout_sample_delay, .store)]
  let T := T + p.readout_duration
  let T := T + p.wait_delay
  (e0 ++ e1 ++ e2, T)

/-- The whole pulse program of T1_memory_coherent.run (lines 141 to 151):
the loop runs over delay_arr starting from T = 0; the final T is passed as
the period to pls.run (line 156). -/
def t1Program (p : Params) : List TEvent × ℚ :=
  p.delay_arr.foldl
    (fun acc d =>
      let s := t1Step p d acc.2
      (acc.1 ++ s.1, s.2))
    ([], 0)

/-- The per-point repetition period for a swept delay: the advance of the
accumulated time T over one loop iteration. -/
def t1PeriodAt (p : Params) (d T : ℚ) : ℚ :=
  (t1Step p d T).2 - T

/-- The attributes of a T1_memory_coherent object (set in the constructor,
lines 42 to 62; t_arr and store_arr start as None and are replaced by run,
line 157, or by load, lines 209 to 210).  Complex samples are embedded as
pairs of rationals. -/
structure MeasurementState where
  readout_freq : ℚ
  control_freq : ℚ
  memory_freq : ℚ
  readout_amp : ℚ
  control_amp : ℚ
  memory_amp : ℚ
  readout_duration : ℚ
  control_duration : ℚ
  memory_duration : ℚ
  sample_duration : ℚ
  delay_arr : List ℚ
  readout_port : ℕ
  control_port : ℕ
  memory_port : ℕ
  sample_port : ℕ
  wait_delay : ℚ
  readout_sample_delay : ℚ
  num_averages : ℕ
  t_arr : Option (List ℚ)
  store_arr : Option (List (ℚ × ℚ))
deriving DecidableEq, Repr

/-- The constructor of T1_memory_coherent (lines 21 to 62): stores every
argument as an attribute and initialises t_arr and store_arr to None. -/
def t1Init (rf cf mf ra ca ma rd cd md sd : ℚ) (da : List ℚ)
    (rp cp mp sp : ℕ) (wd rsd : ℚ) (na : ℕ) : MeasurementState :=
  { readout_freq := rf
    control_freq := cf
    memory_freq := mf
    readout_amp := ra
    control_amp := ca
    memory_amp := ma
    readout_duration := rd
    control_duration := cd
    memory_duration := md
    sample_duration := sd
    delay_arr := da
    readout_port := rp
    control_port := cp
    memory_port := mp
    sample_port := sp
    wait_delay := wd
    readout_sample_delay := rsd
    num_averages := na
    t_arr := none
    store_arr := none }

/-- The persisted record: scalar attributes for every experiment parameter
plus the delay_arr, t_arr and store_arr datasets, exactly the names read
back by T1_memory_coherent.load (lines 166 to 187). -/
structure H5File where
  readout_freq : ℚ
  control_freq : ℚ
  memory_freq : ℚ
  readout_amp : ℚ
  control_amp : ℚ
  memory_amp : ℚ
  readout_duration : ℚ
  control_duration : ℚ
  memory_duration : ℚ
  sample_duration : ℚ
  delay_arr : List ℚ
  readout_port : ℕ
  control_port : ℕ
  memory_port : ℕ
  sample_port : ℕ
  wait_delay : ℚ
  readout_sample_delay : ℚ
  num_averages : ℕ
  t_arr : List ℚ
  store_arr : List (ℚ × ℚ)
deriving DecidableEq, Repr

/-- Modelled from the spec: the method Base.save used by
T1_memory_coherent.save lives in _base.py, which is not under src/.  Per
the spec section on the persisted file layout, it writes a scalar
attribute for every experiment parameter and one dataset each for
delay_arr, the sample-window time axis t_arr and the complex result buffer
store_arr; saving is only meaningful once acquisition (or a previous load)
has filled t_arr and store_arr. -/
def t1Save (s : MeasurementState) : Option H5File :=
  match s.t_arr, s.store_arr with
  | some t, some st =>
      some
        { readout_freq := s.readout_freq
          control_freq := s.control_freq
          memory_freq := s.memory_freq
          readout_amp := s.readout_amp
          control_amp := s.control_amp
          memory_amp := s.memory_amp
          readout_duration := s.readout_duration
          control_duration := s.control_duration
          memory_duration := s.memory_duration
          sample_duration := s.sample_duration
          delay_arr := s.delay_arr
          readout_port := s.readout_port
          control_port := s.control_port
          memory_port := s.memory_port
          sample_port := s.sample_port
          wait_delay := s.wait_delay
          readout_sample_delay := s.readout_sample_delay
          num_averages := s.num_averages
          t_arr := t
          store_arr := st }
  | _, _ => none

/-- T1_memory_coherent.load (lines 164 to 212): read every attribute and
dataset back, construct the object through the constructor, then assign
t_arr and store_arr from the stored datasets. -/
def t1Load (f : H5File) : MeasurementState :=
  let self := t1Init f.readout_freq f.control_freq f.memory_freq
    f.readout_amp f.control_amp f.memory_amp f.readout_duration
    f.control_duration f.memory_duration f.sample_duration f.delay_arr
    f.readout_port f.control_port f.memory_port f.sample_port
    f.wait_delay f.readout_sample_delay f.num_averages
  { self with t_arr := some f.t_arr, store_arr := some f.store_arr }

/-- The timeline-determining parameters of a measurement object, as
consumed by the pulse-programming loop of run. -/
def timelineParams (s : MeasurementState) : Params :=
  { memory_duration := s.memory_duration
    control_duration := s.control_duration
    readout_duration := s.readout_duration
    wait_delay := s.wait_delay
    readout_sample_delay := s.readout_sample_delay
    delay_arr := s.delay_arr }

/-- Small concrete parameters for instantiating theorems. -/
def qTest : Params :=
  { memory_duration := 1
    control_duration := 2
    readout_duration := 3
    wait_delay := 4
    readout_sample_delay := 5
    delay_arr := [0, 1, 2] }

/-- A concrete measurement object with acquired data, for instantiating the
round-trip theorem. -/
def sTest : MeasurementState :=
  { readout_freq := 6000000000
    control_freq := 4000000000
    memory_freq := 3000000000
    readout_amp := 1 / 10
    control_amp := 1 / 2
    memory_amp := 1 / 4
    readout_duration := 3
    control_duration := 2
    memory_duration := 1
    sample_duration := 4
    delay_arr := [0, 7, 9]
    readout_port := 1
    control_port := 2
    memory_port := 3
    sample_port := 1
    wait_delay := 4
    readout_sample_delay := 5
    num_averages := 100
    t_arr := some [0, 1, 2]
    store_arr := some [(1, 2), (3, 4)] }

/-- The persisted record produced by saving sTest. -/
def fTest : H5File :=
  { readout_freq := 6000000000
    control_freq := 4000000000
    memory_freq := 3000000000
    readout_amp := 1 / 10
    control_amp := 1 / 2
    memory_amp := 1 / 4
    readout_duration := 3
    control_duration := 2
    memory_duration := 1
    sample_duration := 4
    delay_arr := [0, 7, 9]
    readout_port := 1
    control_port := 2
    memory_port := 3
    sample_port := 1
    wait_delay := 4
    readout_sample_delay := 5
    num_averages := 100
    t_arr := [0, 1, 2]
    store_arr := [(1, 2), (3, 4)] }

end T1Memory

namespace TwoTone

/-- Rounding of Python builtin round on a real value: round half to even. -/
def pyRound (x : ℚ) : ℤ :=
  let n := ⌊x⌋
  if x - n < 1 / 2 then n
  else if 1 / 2 < x - n then n + 1
  else if 2 ∣ n then n else n + 1

/-- two_tone_power.py line 64: nr_samples = int(round(fs / df)), with df
still the requested bandwidth. -/
def nr_samples (fs df0 : ℚ) : ℤ :=
  pyRound (fs / df0)

/-- two_tone_power.py line 65: df = fs / nr_samples, the adjusted
measurement bandwidth. -/
def df_adjusted (fs df0 : ℚ) : ℚ :=
  fs / ((nr_samples fs df0 : ℤ) : ℚ)

/-- two_tone_power.py line 67: n_start = int(round((center_freq - span / 2)
/ df)), using the adjusted df. -/
def n_start (fs df0 cf span : ℚ) : ℤ :=
  pyRound ((cf - span / 2) / df_adjusted fs df0)

/-- two_tone_power.py line 68: n_stop = int(round((center_freq + span / 2)
/ df)), using the adjusted df. -/
def n_stop (fs df0 cf span : ℚ) : ℤ :=
  pyRound ((cf + span / 2) / df_adjusted fs df0)

/-- two_tone_power.py line 69: n_arr = np.arange(n_start, n_stop + 1). -/
def n_arr (fs df0 cf span : ℚ) : List ℤ :=
  (List.range (n_stop fs df0 cf span + 1 - n_start fs df0 cf span).toNat).map
    (fun k : ℕ => n_start fs df0 cf span + (k : ℤ))

/-- two_tone_power.py line 71: qubit_freq_arr = df * n_arr. -/
def qubit_freq_arr (fs df0 cf span : ℚ) : List ℚ :=
  (n_arr fs df0 cf span).map
    (fun n : ℤ => df_adjusted fs df0 * ((n : ℤ) : ℚ))

/-- Events of one iteration of the inner sweep loop of two_tone_power.py
(lines 100 to 124): the output is paused, the qubit drive is rescaled to
the current sweep amplitude, the output restarted and the point acquired
over DMA. -/
def sweepEvents (amps : ℕ → ℚ) (jj ii : ℕ) : List Hw.Eff :=
  [Hw.Eff.set_run false, Hw.Eff.set_scale 5 (amps jj) (amps jj),
   Hw.Eff.set_run true, Hw.Eff.sweep_point jj ii]

/-- The 2D sweep grid of two_tone_power.py (lines 99 to 100): all
(amplitude index, frequency index) pairs in loop order. -/
def allPoints (nr_amps nr_freq : ℕ) : List (ℕ × ℕ) :=
  (List.range nr_amps).flatMap
    (fun jj => (List.range nr_freq).map (fun ii => (jj, ii)))

/-- Hardware-effect trace of the with-block of two_tone_power.py (lines 48
to 148), abstracting mixer configuration and DMA bookkeeping.  The cavity
port is 1 and the qubit port is 5 (lines 41 to 42); cavity_amp and amps
mirror cavity_amp and qubit_amp_arr.  abortAfter models an exception
raised inside the sweep loop after that many completed points: the muting
statements at lines 146 to 148 are then skipped and only the context
manager closes the connection. -/
def hwTrace (nr_amps nr_freq : ℕ) (cavity_amp : ℚ) (amps : ℕ → ℚ)
    (abortAfter : Option ℕ) : List Hw.Eff :=
  let setup : List Hw.Eff :=
    [Hw.Eff.connect, Hw.Eff.set_run false,
     Hw.Eff.set_scale 1 cavity_amp cavity_amp,
     Hw.Eff.set_scale 5 (amps 0) (amps 0), Hw.Eff.set_run true]
  let pts := allPoints nr_amps nr_freq
  match abortAfter with
  | some k =>
      setup ++ (pts.take k).flatMap (fun q => sweepEvents amps q.1 q.2)
        ++ [Hw.Eff.disconnect]
  | none =>
      setup ++ pts.flatMap (fun q => sweepEvents amps q.1 q.2)
        ++ [Hw.Eff.set_run false, Hw.Eff.set_scale 1 0 0,
            Hw.Eff.set_scale 5 0 0, Hw.Eff.disconnect]

end TwoTone

namespace RamseyEcho

lemma ramseyStep_snd (p : Params) (ii : ℕ) (T : ℚ) :
    (ramseyStep p ii T).2 =
      T + 3 * p.control_duration + (ii : ℚ) * p.dt_delays
        + p.readout_duration + p.wait_delay := by
  simp only [ramseyStep]
  ring

lemma periodAt_eq (p : Params) (ii : ℕ) (T : ℚ) :
    periodAt p ii T =
      3 * p.control_duration + (ii : ℚ) * p.dt_delays
        + p.readout_duration + p.wait_delay := by
  simp only [periodAt, ramseyStep_snd]
  ring

lemma startTime_succ (p : Params) (i : ℕ) :
    startTime p (i + 1) = (ramseyStep p i (startTime p i)).2 := by
  simp only [startTime, List.range_succ, List.foldl_append, List.foldl_cons,
    List.foldl_nil]

lemma startTime_closed (p : Params) (i : ℕ) :
    startTime p i =
      (i : ℚ) * (3 * p.control_duration + p.readout_duration + p.wait_delay)
        + (∑ j ∈ Finset.range i, (j : ℚ)) * p.dt_delays := by
  induction i with
  | zero => simp [startTime]
  | succ n ih =>
      rw [startTime_succ, ramseyStep_snd, ih, Finset.sum_range_succ]
      push_cast
      ring

lemma ramseyProgram_snd (p : Params) :
    (ramseyProgram p).2 = startTime p p.nr_delays := by
  have h : ∀ (l : List ℕ) (es : List REvent) (T : ℚ),
      (l.foldl (fun acc ii =>
        let s := ramseyStep p ii acc.2
        (acc.1 ++ s.1, s.2)) (es, T)).2 =
      l.foldl (fun T ii => (ramseyStep p ii T).2) T := by
    intro l
    induction l with
    | nil => intro es T; rfl
    | cons a l ih => intro es T; exact ih _ _
  simpa [ramseyProgram, startTime] using h (List.range p.nr_delays) [] 0

/-- Claim C1: for every sweep index i below nr_delays, the timeline of the
Ramsey-echo sweep point, relative to the start time of the point, consists
of the phase reset on the control port and the first half-pi pulse at 0,
the pi pulse at control_duration + d(i)/2, the second half-pi pulse at
2 control_duration + d(i), the phase reset on the readout port and the
readout pulse at 3 control_duration + d(i), and the sampling window at
3 control_duration + d(i) + readout_sample_delay, where d(i) equals
i dt_delays; the next sweep point begins after a further readout_duration
plus wait_delay. -/
theorem ramsey_point_timeline (p : Params) (i : ℕ) (_h : i < p.nr_delays) :
    (pointEvents p i).map (fun e => (e.1 - startTime p i, e.2)) =
      [(0, RAction.reset_phase p.control_port), (0, RAction.pulse90),
       (p.control_duration + (i : ℚ) * p.dt_delays / 2, RAction.pulse180),
       (2 * p.control_duration + (i : ℚ) * p.dt_delays, RAction.pulse90),
       (3 * p.control_duration + (i : ℚ) * p.dt_delays,
         RAction.reset_phase p.readout_port),
       (3 * p.control_duration + (i : ℚ) * p.dt_delays,
         RAction.readout_pulse),
       (3 * p.control_duration + (i : ℚ) * p.dt_delays
         + p.readout_sample_delay, RAction.store)] ∧
    startTime p (i + 1) - startTime p i =
      3 * p.control_duration + (i : ℚ) * p.dt_delays
        + p.readout_duration + p.wait_delay := by
  constructor
  · simp only [pointEvents, ramseyStep, List.append_assoc, List.cons_append,
      List.nil_append, List.map_cons, List.map_nil, Prod.mk.injEq,
      List.cons.injEq, and_true, List.map_eq_nil_iff]
    refine ⟨by ring, by ring, by ring, by ring, by ring, by ring, by ring⟩
  · rw [startTime_succ, ramseyStep_snd]
    ring

/-- Witness for ramsey_point_timeline at concrete parameters and index 1. -/
theorem ramsey_point_timeline_witness :
    1 < pTest.nr_delays ∧
    ((pointEvents pTest 1).map (fun e => (e.1 - startTime pTest 1, e.2)) =
      [(0, RAction.reset_phase pTest.control_port), (0, RAction.pulse90),
       (pTest.control_duration + ((1 : ℕ) : ℚ) * pTest.dt_delays / 2,
         RAction.pulse180),
       (2 * pTest.control_duration + ((1 : ℕ) : ℚ) * pTest.dt_delays,
         RAction.pulse90),
       (3 * pTest.control_duration + ((1 : ℕ) : ℚ) * pTest.dt_delays,
         RAction.reset_phase pTest.readout_port),
       (3 * pTest.control_duration + ((1 : ℕ) : ℚ) * pTest.dt_delays,
         RAction.readout_pulse),
       (3 * pTest.control_duration + ((1 : ℕ) : ℚ) * pTest.dt_delays
         + pTest.readout_sample_delay, RAction.store)] ∧
    startTime pTest (1 + 1) - startTime pTest 1 =
      3 * pTest.control_duration + ((1 : ℕ) : ℚ) * pTest.dt_delays
        + pTest.readout_duration + pTest.wait_delay) :=
  ⟨by decide, ramsey_point_timeline pTest 1 (by decide)⟩

/-- Claim C3: in the Ramsey-echo timeline of sweep point i, the idle gaps
between consecutive output pulses are exactly d(i)/2 between the first
half-pi pulse and the pi pulse, d(i)/2 between the pi pulse and the second
half-pi pulse, and 0 between the second half-pi pulse and the readout
pulse; with dt_delays non-negative every gap is non-negative. -/
theorem ramsey_gaps (p : Params) (i : ℕ) (hdt : 0 ≤ p.dt_delays) :
    gapsOf (pulseIntervals p (pointEvents p i)) =
      [(i : ℚ) * p.dt_delays / 2, (i : ℚ) * p.dt_delays / 2, 0] ∧
    ∀ g ∈ gapsOf (pulseIntervals p (pointEvents p i)), 0 ≤ g := by
  have hgaps : gapsOf (pulseIntervals p (pointEvents p i)) =
      [(i : ℚ) * p.dt_delays / 2, (i : ℚ) * p.dt_delays / 2, 0] := by
    simp only [pointEvents, ramseyStep, pulseIntervals, pulseDuration,
      List.append_assoc, List.cons_append, List.nil_append,
      List.filterMap_cons, Option.map_some, Option.map_none,
      List.filterMap_nil, gapsOf, List.cons.injEq, and_true]
    refine ⟨by ring, by ring, by ring⟩
  refine ⟨hgaps, ?_⟩
  intro g hg
  rw [hgaps] at hg
  have hd : 0 ≤ (i : ℚ) * p.dt_delays / 2 := by
    have hi : (0 : ℚ) ≤ (i : ℚ) := Nat.cast_nonneg i
    positivity
  simp only [List.mem_cons, List.not_mem_nil, or_false] at hg
  rcases hg with h1 | h1 | h1
  · rw [h1]; exact hd
  · rw [h1]; exact hd
  · rw [h1]

/-- Witness for ramsey_gaps at concrete parameters and index 2. -/
theorem ramsey_gaps_witness :
    (0 : ℚ) ≤ pTest.dt_delays ∧
    (gapsOf (pulseIntervals pTest (pointEvents pTest 2)) =
      [((2 : ℕ) : ℚ) * pTest.dt_delays / 2,
       ((2 : ℕ) : ℚ) * pTest.dt_delays / 2, 0] ∧
    ∀ g ∈ gapsOf (pulseIntervals pTest (pointEvents pTest 2)), 0 ≤ g) :=
  ⟨by decide, ramsey_gaps pTest 2 (by decide)⟩

end RamseyEcho

namespace RamseyEcho

/-- Counterexample to claim C2 as stated: the period passed to pls.run is
the final accumulated T, which at concrete parameters (five sweep points,
unit durations) differs from the maximum per-point period
3 control_duration + (nr_delays - 1) dt_delays + readout_duration
+ wait_delay. -/
theorem ramsey_run_period_counterexample :
    (ramseyProgram pTest).2 ≠
      3 * pTest.control_duration
        + ((pTest.nr_delays - 1 : ℕ) : ℚ) * pTest.dt_delays
        + pTest.readout_duration + pTest.wait_delay := by
  rw [ramseyProgram_snd, startTime_closed]
  have hs : (∑ j ∈ Finset.range pTest.nr_delays, (j : ℚ)) = 10 := by
    rw [← Nat.cast_sum]
    norm_num [pTest, Finset.sum_range_id]
  rw [hs]
  norm_num [pTest]

/-- Claim C2 amended: the period passed to pls.run is the accumulated end
time of the whole sweep, the sum of all per-point periods; it includes the
largest swept delay as a summand and, with non-negative durations and at
least one sweep point, is at least the maximum per-point period. -/
theorem ramsey_run_period_amended (p : Params)
    (hc : 0 ≤ p.control_duration) (hro : 0 ≤ p.readout_duration)
    (hw : 0 ≤ p.wait_delay) (hdt : 0 ≤ p.dt_delays)
    (hn : 1 ≤ p.nr_delays) :
    (ramseyProgram p).2 =
      ∑ i ∈ Finset.range p.nr_delays, periodAt p i (startTime p i) ∧
    3 * p.control_duration
      + ((p.nr_delays - 1 : ℕ) : ℚ) * p.dt_delays
      + p.readout_duration + p.wait_delay ≤ (ramseyProgram p).2 := by
  have hsum : ∀ n, startTime p n =
      ∑ i ∈ Finset.range n, periodAt p i (startTime p i) := by
    intro n
    induction n with
    | zero => simp [startTime]
    | succ m ih =>
        rw [startTime_succ, Finset.sum_range_succ, ← ih, periodAt]
        ring
  constructor
  · rw [ramseyProgram_snd]
    exact hsum _
  · rw [ramseyProgram_snd, hsum]
    have hmem : p.nr_delays - 1 ∈ Finset.range p.nr_delays :=
      Finset.mem_range.mpr (by omega)
    have hnonneg : ∀ i ∈ Finset.range p.nr_delays,
        0 ≤ periodAt p i (startTime p i) := by
      intro i _
      rw [periodAt_eq]
      have hi : (0 : ℚ) ≤ (i : ℚ) := Nat.cast_nonneg i
      have h2 : 0 ≤ (i : ℚ) * p.dt_delays := mul_nonneg hi hdt
      linarith
    have hle := Finset.single_le_sum hnonneg hmem
    have heq : periodAt p (p.nr_delays - 1)
        (startTime p (p.nr_delays - 1)) =
        3 * p.control_duration
          + ((p.nr_delays - 1 : ℕ) : ℚ) * p.dt_delays
          + p.readout_duration + p.wait_delay := periodAt_eq p _ _
    rw [← heq]
    exact hle

/-- Witness for ramsey_run_period_amended at concrete parameters. -/
theorem ramsey_run_period_amended_witness :
    (ramseyProgram pTest).2 =
      ∑ i ∈ Finset.range pTest.nr_delays,
        periodAt pTest i (startTime pTest i) ∧
    3 * pTest.control_duration
      + ((pTest.nr_delays - 1 : ℕ) : ℚ) * pTest.dt_delays
      + pTest.readout_duration + pTest.wait_delay ≤
        (ramseyProgram pTest).2 :=
  ramsey_run_period_amended pTest (by decide) (by decide) (by decide)
    (by decide) (by decide)

/-- Claim C8: at the concrete configuration of ramsey_echo.py, the largest
swept delay is 255 times 400 ns, which equals 102 us, and the total period
passed to pls.run is at least 3 times 20 ns plus 102 us plus
readout_duration plus wait_delay. -/
theorem ramsey_scenario_period :
    ((scriptParams.nr_delays - 1 : ℕ) : ℚ) * scriptParams.dt_delays =
      255 * (400 / 1000000000) ∧
    ((scriptParams.nr_delays - 1 : ℕ) : ℚ) * scriptParams.dt_delays =
      102 / 1000000 ∧
    3 * scriptParams.control_duration + 102 / 1000000
      + scriptParams.readout_duration + scriptParams.wait_delay
      ≤ (ramseyProgram scriptParams).2 := by
  refine ⟨by norm_num [scriptParams], by norm_num [scriptParams], ?_⟩
  rw [ramseyProgram_snd, startTime_closed]
  have hnr : scriptParams.nr_delays = 256 := rfl
  rw [hnr]
  have hs : (∑ j ∈ Finset.range 256, (j : ℚ)) = 32640 := by
    rw [← Nat.cast_sum, Finset.sum_range_id]
    norm_num
  rw [hs]
  norm_num [scriptParams]

end RamseyEcho

namespace T1Memory

lemma t1Step_snd (p : Params) (d T : ℚ) :
    (t1Step p d T).2 =
      T + p.memory_duration + d + p.control_duration
        + p.readout_duration + p.wait_delay := by
  simp only [t1Step]

lemma t1PeriodAt_eq (p : Params) (d T : ℚ) :
    t1PeriodAt p d T =
      p.memory_duration + d + p.control_duration
        + p.readout_duration + p.wait_delay := by
  simp only [t1PeriodAt, t1Step_snd]
  ring

/-- Claim C4: for every entry delay of delay_arr, the T1 sweep point,
relative to its start time, schedules the memory pulse at 0, the control
pulse at memory_duration + delay, the readout pulse at
memory_duration + delay + control_duration, and the sampling window a
further readout_sample_delay later; the per-point repetition period is
memory_duration + delay + control_duration + readout_duration
+ wait_delay. -/
theorem t1_point_timeline (p : Params) (d : ℚ) (_hd : d ∈ p.delay_arr)
    (T : ℚ) :
    (t1Step p d T).1.map (fun e => (e.1 - T, e.2)) =
      [(0, TAction.memory_pulse),
       (p.memory_duration + d, TAction.control_pulse),
       (p.memory_duration + d + p.control_duration, TAction.readout_pulse),
       (p.memory_duration + d + p.control_duration
         + p.readout_sample_delay, TAction.store)] ∧
    t1PeriodAt p d T =
      p.memory_duration + d + p.control_duration
        + p.readout_duration + p.wait_delay := by
  constructor
  · simp only [t1Step, List.append_assoc, List.cons_append,
      List.nil_append, List.map_cons, List.map_nil, Prod.mk.injEq,
      List.cons.injEq, and_true]
    refine ⟨by ring, by ring, by ring, by ring⟩
  · rw [t1PeriodAt_eq]

/-- Witness for t1_point_timeline at concrete parameters, delay 1 and
start time 5. -/
theorem t1_point_timeline_witness :
    (1 : ℚ) ∈ qTest.delay_arr ∧
    ((t1Step qTest 1 5).1.map (fun e => (e.1 - 5, e.2)) =
      [(0, TAction.memory_pulse),
       (qTest.memory_duration + 1, TAction.control_pulse),
       (qTest.memory_duration + 1 + qTest.control_duration,
         TAction.readout_pulse),
       (qTest.memory_duration + 1 + qTest.control_duration
         + qTest.readout_sample_delay, TAction.store)] ∧
    t1PeriodAt qTest 1 5 =
      qTest.memory_duration + 1 + qTest.control_duration
        + qTest.readout_duration + qTest.wait_delay) :=
  ⟨by decide, t1_point_timeline qTest 1 (by decide) 5⟩

/-- Claim C7: saving a measurement object and loading the file back yields
an object equal to the original in every attribute, t_arr and store_arr
included, so the rebuilt pulse timeline is identical to the original one
and analysis can re-run without re-acquiring data. -/
theorem t1_save_load_roundtrip (s : MeasurementState) (f : H5File)
    (h : t1Save s = some f) :
    t1Load f = s ∧
    t1Program (timelineParams (t1Load f)) =
      t1Program (timelineParams s) := by
  have hload : t1Load f = s := by
    cases s with
    | mk rf cf mf ra ca ma rd cd md sd da rp cp mp sp wd rsd na ta sa =>
      cases ta with
      | none => simp [t1Save] at h
      | some t =>
        cases sa with
        | none => simp [t1Save] at h
        | some st =>
          simp only [t1Save] at h
          injection h with h
          subst h
          rfl
  exact ⟨hload, by rw [hload]⟩

/-- Witness for t1_save_load_roundtrip on a concrete measurement object. -/
theorem t1_save_load_roundtrip_witness :
    t1Save sTest = some fTest ∧
    (t1Load fTest = sTest ∧
      t1Program (timelineParams (t1Load fTest)) =
        t1Program (timelineParams sTest)) :=
  ⟨rfl, t1_save_load_roundtrip sTest fTest rfl⟩

end T1Memory

/-- Claim C5: for both the Ramsey-echo and the T1 timelines, the per-point
repetition period is monotonically non-decreasing in the swept delay: for
sweep indices i at most j (with dt_delays non-negative) the Ramsey-echo
period does not decrease, and for delays d at most e the T1 period does
not decrease. -/
theorem period_monotone (p : RamseyEcho.Params) (q : T1Memory.Params)
    (T : ℚ) :
    (∀ i j : ℕ, i ≤ j → 0 ≤ p.dt_delays →
      RamseyEcho.periodAt p i T ≤ RamseyEcho.periodAt p j T) ∧
    (∀ d e : ℚ, d ≤ e →
      T1Memory.t1PeriodAt q d T ≤ T1Memory.t1PeriodAt q e T) := by
  constructor
  · intro i j hij hdt
    rw [RamseyEcho.periodAt_eq, RamseyEcho.periodAt_eq]
    have h1 : (i : ℚ) ≤ (j : ℚ) := Nat.cast_le.mpr hij
    have h2 : (i : ℚ) * p.dt_delays ≤ (j : ℚ) * p.dt_delays :=
      mul_le_mul_of_nonneg_right h1 hdt
    linarith
  · intro d e hde
    rw [T1Memory.t1PeriodAt_eq, T1Memory.t1PeriodAt_eq]
    linarith

/-- Witness for period_monotone at concrete parameters. -/
theorem period_monotone_witness :
    RamseyEcho.periodAt RamseyEcho.pTest 1 0 ≤
      RamseyEcho.periodAt RamseyEcho.pTest 2 0 ∧
    T1Memory.t1PeriodAt T1Memory.qTest 1 0 ≤
      T1Memory.t1PeriodAt T1Memory.qTest 2 0 :=
  ⟨(period_monotone RamseyEcho.pTest T1Memory.qTest 0).1 1 2
      (by decide) (by decide),
    (period_monotone RamseyEcho.pTest T1Memory.qTest 0).2 1 2 (by decide)⟩

/-- Counterexample to claim C6 as stated: with the concrete JPA settings of
ramsey_echo.py for qubit 2 and an exception raised by pls.run, the trace
reaches the acquisition but contains neither the pump mute set_lmx 0 0 nor
the bias zeroing set_dc_bias 1 0; likewise, aborting the two-tone sweep
after one point leaves both output scales un-zeroed. -/
theorem cleanup_on_failure_counterexample :
    (Hw.Eff.run_acquisition ∈
        RamseyEcho.hwTrace true (2 * 6031000000) 9 (449 / 1000) true ∧
      Hw.Eff.set_lmx 0 0 ∉
        RamseyEcho.hwTrace true (2 * 6031000000) 9 (449 / 1000) true ∧
      Hw.Eff.set_dc_bias 1 0 ∉
        RamseyEcho.hwTrace true (2 * 6031000000) 9 (449 / 1000) true) ∧
    (Hw.Eff.sweep_point 0 0 ∈
        TwoTone.hwTrace 61 3 (1 / 10) (fun _ => 1 / 1000) (some 1) ∧
      Hw.Eff.set_scale 1 0 0 ∉
        TwoTone.hwTrace 61 3 (1 / 10) (fun _ => 1 / 1000) (some 1) ∧
      Hw.Eff.set_scale 5 0 0 ∉
        TwoTone.hwTrace 61 3 (1 / 10) (fun _ => 1 / 1000) (some 1)) := by
  constructor
  · refine ⟨?_, ?_, ?_⟩ <;> simp [RamseyEcho.hwTrace] <;>
      norm_num
  · refine ⟨?_, ?_, ?_⟩
    · simp [TwoTone.hwTrace, TwoTone.allPoints, TwoTone.sweepEvents,
        List.mem_append, List.mem_flatMap, List.range_succ]
    · simp [TwoTone.hwTrace, TwoTone.allPoints, TwoTone.sweepEvents,
        List.mem_append, List.mem_flatMap]
    · simp [TwoTone.hwTrace, TwoTone.allPoints, TwoTone.sweepEvents,
        List.mem_append, List.mem_flatMap]

/-- Claim C6 amended: the mute and zero calls run only on the
normal-completion path.  When the run completes, ramsey_echo.py with
USE_JPA mutes the pump and zeroes the bias and two_tone_power.py zeroes
both output scales; when an exception aborts the run mid-way, these calls
are skipped and only the context manager closes the connection. -/
theorem cleanup_on_success_only (pf pw bi : ℚ) (hpf : pf ≠ 0)
    (hbi : bi ≠ 0) (rr : Bool) (na nf : ℕ) (ca : ℚ) (hca : ca ≠ 0)
    (amps : ℕ → ℚ) (hamps : ∀ j, amps j ≠ 0) (k : ℕ) :
    (Hw.Eff.set_lmx 0 0 ∈ RamseyEcho.hwTrace true pf pw bi rr ↔
      rr = false) ∧
    (Hw.Eff.set_dc_bias 1 0 ∈ RamseyEcho.hwTrace true pf pw bi rr ↔
      rr = false) ∧
    (Hw.Eff.set_scale 1 0 0 ∈ TwoTone.hwTrace na nf ca amps none ∧
      Hw.Eff.set_scale 5 0 0 ∈ TwoTone.hwTrace na nf ca amps none) ∧
    (Hw.Eff.set_scale 1 0 0 ∉ TwoTone.hwTrace na nf ca amps (some k) ∧
      Hw.Eff.set_scale 5 0 0 ∉ TwoTone.hwTrace na nf ca amps (some k)) := by
  have hpf0 : ¬(0 : ℚ) = pf := fun h => hpf h.symm
  have hbi0 : ¬(0 : ℚ) = bi := fun h => hbi h.symm
  have hca0 : ¬(0 : ℚ) = ca := fun h => hca h.symm
  have hamps0 : ∀ j, ¬(0 : ℚ) = amps j := fun j h => hamps j h.symm
  refine ⟨?_, ?_, ⟨?_, ?_⟩, ?_, ?_⟩
  · cases rr <;> simp [RamseyEcho.hwTrace, hpf0]
  · cases rr <;> simp [RamseyEcho.hwTrace, hbi0]
  · simp [TwoTone.hwTrace]
  · simp [TwoTone.hwTrace]
  · simp [TwoTone.hwTrace, TwoTone.sweepEvents, List.mem_flatMap, hca0,
      hamps0]
  · simp [TwoTone.hwTrace, TwoTone.sweepEvents, List.mem_flatMap, hca0,
      hamps0]

/-- Witness for cleanup_on_success_only at concrete values. -/
theorem cleanup_on_success_only_witness :
    (Hw.Eff.set_lmx 0 0 ∈
        RamseyEcho.hwTrace true (2 * 6031000000) 9 (449 / 1000) false ↔
      false = false) ∧
    (Hw.Eff.set_dc_bias 1 0 ∈
        RamseyEcho.hwTrace true (2 * 6031000000) 9 (449 / 1000) false ↔
      false = false) ∧
    (Hw.Eff.set_scale 1 0 0 ∈
        TwoTone.hwTrace 2 2 (1 / 10) (fun _ => 1 / 1000) none ∧
      Hw.Eff.set_scale 5 0 0 ∈
        TwoTone.hwTrace 2 2 (1 / 10) (fun _ => 1 / 1000) none) ∧
    (Hw.Eff.set_scale 1 0 0 ∉
        TwoTone.hwTrace 2 2 (1 / 10) (fun _ => 1 / 1000) (some 1) ∧
      Hw.Eff.set_scale 5 0 0 ∉
        TwoTone.hwTrace 2 2 (1 / 10) (fun _ => 1 / 1000) (some 1)) :=
  cleanup_on_success_only (2 * 6031000000) 9 (449 / 1000) (by norm_num)
    (by norm_num) false 2 2 (1 / 10) (by norm_num) (fun _ => 1 / 1000)
    (fun _ => by norm_num) 1

/-- Claim C9: an invalid WHICH_QUBIT selector makes ramsey_echo.py raise
at startup, before any instrument connection is opened, so no hardware
trace exists; selectors 1 and 2 raise no such configuration error and the
script proceeds to a trace. -/
theorem which_qubit_guard (which : ℤ) (wc uj rr : Bool) :
    (which ≠ 1 → which ≠ 2 →
      RamseyEcho.script which wc uj rr = none) ∧
    ((which = 1 ∨ which = 2) →
      (RamseyEcho.script which wc uj rr).isSome = true) := by
  constructor
  · intro h1 h2
    simp [RamseyEcho.script, RamseyEcho.selectConfig, h1, h2]
  · rintro (rfl | rfl) <;>
      simp [RamseyEcho.script, RamseyEcho.selectConfig]

/-- Witness for which_qubit_guard: selector 3 yields no trace, selector 2
yields one. -/
theorem which_qubit_guard_witness :
    RamseyEcho.script 3 false true false = none ∧
    (RamseyEcho.script 2 false true false).isSome = true :=
  ⟨(which_qubit_guard 3 false true false).1 (by decide) (by decide),
    (which_qubit_guard 2 false true false).2 (Or.inr rfl)⟩

namespace TwoTone

lemma length_qubit_freq_arr (fs df0 cf span : ℚ) :
    (qubit_freq_arr fs df0 cf span).length =
      (n_stop fs df0 cf span + 1 - n_start fs df0 cf span).toNat := by
  simp [qubit_freq_arr, n_arr]

lemma getD_qubit_freq_arr (fs df0 cf span : ℚ) (k : ℕ)
    (hk : k < (qubit_freq_arr fs df0 cf span).length) :
    (qubit_freq_arr fs df0 cf span).getD k 0 =
      df_adjusted fs df0 * ((n_start fs df0 cf span + (k : ℤ) : ℤ) : ℚ) := by
  have hk2 : k <
      (n_stop fs df0 cf span + 1 - n_start fs df0 cf span).toNat := by
    rw [← length_qubit_freq_arr fs df0 cf span]
    exact hk
  rw [List.getD_eq_getElem _ _ hk]
  simp [qubit_freq_arr, n_arr]

/-- Claim C10: in two_tone_power.py the measurement bandwidth is adjusted
to divide the sampling rate, df = fs / round(fs / df_requested) exactly;
the swept frequency array consists of the consecutive integer multiples
n df for n from round((center_freq - span/2)/df) to
round((center_freq + span/2)/df) inclusive, so consecutive sweep
frequencies differ by exactly the adjusted df. -/
theorem two_tone_grid (fs df0 cf span : ℚ) :
    df_adjusted fs df0 = fs / ((pyRound (fs / df0) : ℤ) : ℚ) ∧
    (qubit_freq_arr fs df0 cf span).length =
      (n_stop fs df0 cf span + 1 - n_start fs df0 cf span).toNat ∧
    (∀ k : ℕ, k < (qubit_freq_arr fs df0 cf span).length →
      (qubit_freq_arr fs df0 cf span).getD k 0 =
        df_adjusted fs df0 *
          ((n_start fs df0 cf span + (k : ℤ) : ℤ) : ℚ)) ∧
    (∀ k : ℕ, k + 1 < (qubit_freq_arr fs df0 cf span).length →
      (qubit_freq_arr fs df0 cf span).getD (k + 1) 0
        - (qubit_freq_arr fs df0 cf span).getD k 0 =
        df_adjusted fs df0) := by
  refine ⟨rfl, length_qubit_freq_arr fs df0 cf span,
    getD_qubit_freq_arr fs df0 cf span, ?_⟩
  intro k hk
  have hk0 : k < (qubit_freq_arr fs df0 cf span).length :=
    Nat.lt_of_succ_lt hk
  rw [getD_qubit_freq_arr fs df0 cf span (k + 1) hk,
    getD_qubit_freq_arr fs df0 cf span k hk0]
  push_cast
  ring

lemma pyRound_intCast (n : ℤ) : pyRound ((n : ℤ) : ℚ) = n := by
  simp [pyRound]

lemma two_tone_example_length :
    (qubit_freq_arr 100 10 40 20).length = 3 := by
  have hns : nr_samples 100 10 = 10 := by
    have h : (100 : ℚ) / 10 = ((10 : ℤ) : ℚ) := by norm_num
    rw [nr_samples, h, pyRound_intCast]
  have hdf : df_adjusted 100 10 = 10 := by
    rw [df_adjusted, hns]
    norm_num
  have hstart : n_start 100 10 40 20 = 3 := by
    rw [n_start, hdf]
    have h : ((40 : ℚ) - 20 / 2) / 10 = ((3 : ℤ) : ℚ) := by norm_num
    rw [h, pyRound_intCast]
  have hstop : n_stop 100 10 40 20 = 5 := by
    rw [n_stop, hdf]
    have h : ((40 : ℚ) + 20 / 2) / 10 = ((5 : ℤ) : ℚ) := by norm_num
    rw [h, pyRound_intCast]
  rw [length_qubit_freq_arr, hstart, hstop]
  decide

/-- Witness for two_tone_grid at fs 100, requested df 10, center 40,
span 20: the grid is the three frequencies 30, 40, 50. -/
theorem two_tone_grid_witness :
    df_adjusted 100 10 = 100 / ((pyRound (100 / 10) : ℤ) : ℚ) ∧
    (qubit_freq_arr 100 10 40 20).getD 0 0 =
      df_adjusted 100 10 *
        ((n_start 100 10 40 20 + ((0 : ℕ) : ℤ) : ℤ) : ℚ) ∧
    (qubit_freq_arr 100 10 40 20).getD (0 + 1) 0
      - (qubit_freq_arr 100 10 40 20).getD 0 0 = df_adjusted 100 10 := by
  have hlen := two_tone_example_length
  exact ⟨(two_tone_grid 100 10 40 20).1,
    (two_tone_grid 100 10 40 20).2.2.1 0 (by rw [hlen]; norm_num),
    (two_tone_grid 100 10 40 20).2.2.2 0 (by rw [hlen]; norm_num)⟩

end TwoTone
